import Mathlib

/-!
Verification development for the UMA Resource Server
(`ResourceServer` in the main server file, `SignedFetcher.ts`).

The TypeScript sources are shallowly embedded: each Express handler and each
method of `JwkGenerator` / `SignedFetcher` becomes a pure Lean function over
explicit state, with the I/O collaborators (the AS introspection endpoint, the
AS permission endpoint, the key generator) passed in as oracle arguments.
JavaScript `Map` objects are modelled as association lists, JavaScript string
truthiness is modelled explicitly, and a thrown JS exception is modelled as a
name/message pair.
-/

namespace UMARS

/-- A thrown JavaScript exception, identified by its constructor name
(for example TypeError) and its message string. -/
structure JsError where
  name : String
  msg : String
deriving DecidableEq, Repr

/-- JavaScript string interpolation of an Error value: interpolating an
exception into a template literal yields the form name plus a colon, a space,
and the message. -/
def JsError.interp (e : JsError) : String :=
  e.name ++ ": " ++ e.msg

/-- JavaScript truthiness of an optional string: `undefined` and the empty
string are falsy, every other string is truthy. -/
def jsTruthy : Option String → Bool
  | none => false
  | some s => s ≠ ""

/-- The JavaScript expression `a || b` for an optional string `a` and a
string default `b`: yields `b` when `a` is falsy. -/
def jsOrElse (a : Option String) (b : String) : String :=
  match a with
  | none => b
  | some s => if s = "" then b else s

/-- `Map.prototype.get`, over the association-list model of a JS `Map`
(first binding wins; `mapSet` keeps at most one binding per key). -/
def mapGet (m : List (String × String)) (k : String) : Option String :=
  (m.find? (fun p => p.1 = k)).map (fun p => p.2)

/-- `Map.prototype.set`: replaces the binding for the key when present,
otherwise appends a new binding. -/
def mapSet (m : List (String × String)) (k v : String) : List (String × String) :=
  match m with
  | [] => [(k, v)]
  | (k₀, v₀) :: rest =>
    if k₀ = k then (k, v) :: rest else (k₀, v₀) :: mapSet rest k v

/-- Fuel-indexed worker for `String.prototype.split` with a non-empty string
separator: scans left to right; each time the separator is a prefix of the
remaining input it emits the accumulated chunk and skips the separator.
The fuel argument (instantiated with the length of the input) only makes the
recursion structural; it never runs out. -/
def splitFuel (sep : List Char) : Nat → List Char → List Char → List (List Char)
  | _, [], acc => [acc.reverse]
  | 0, l, acc => [acc.reverse ++ l]
  | fuel + 1, c :: rest, acc =>
    if sep.isPrefixOf (c :: rest) then
      acc.reverse :: splitFuel sep fuel (List.drop (sep.length - 1) rest) []
    else
      splitFuel sep fuel rest (c :: acc)

/-- JavaScript `s.split(sep)` for a non-empty string separator. -/
def jsSplit (sep s : String) : List String :=
  (splitFuel sep.data s.data.length s.data []).map (fun l => String.mk l)

/-! ## ResourceServer data model -/

/-- The AS configuration fetched from `/.well-known/uma2-configuration`
at construction time (`authServerUmaConfig`). -/
structure AsUmaConfig where
  permission_endpoint : String
  introspection_endpoint : String
  resource_registration_endpoint : String
deriving DecidableEq, Repr

/-- The JSON body of the AS introspection response, as used by the handler:
only the `active` field is inspected. -/
structure IntrospectionResponse where
  active : Bool
deriving DecidableEq, Repr

/-- Outcome of the signed introspection call `this.fetcher.fetch(...)`
followed by `res.json()`: either a parsed JSON body, or a thrown exception
(network failure from `fetch`, or a non-JSON body making `res.json()` throw). -/
inductive IntrospectionOutcome where
  | ok (r : IntrospectionResponse)
  | failed (e : JsError)
deriving DecidableEq, Repr

/-- The JSON body of the AS permission-endpoint response; the handler reads
its `ticket` field. -/
structure TicketResponse where
  ticket : String
deriving DecidableEq, Repr

/-- The ticket request the handler sends to the AS permission endpoint:
a POST whose JSON body is the one-element array
`[\x7b resource_id, resource_scopes \x7d]`. -/
structure PermissionRequest where
  endpoint : String
  resource_id : String
  resource_scopes : List String
deriving DecidableEq, Repr

/-- An HTTP response as produced through the Express `res` object:
`statusCode` (200 when never assigned), the body passed to `res.send`,
and the `WWW-Authenticate` header when set. -/
structure HttpResponse where
  status : Nat
  body : String
  wwwAuthenticate : Option String
deriving DecidableEq, Repr

/-- Observable outcome of one `getResource` invocation:
the HTTP response sent (none when the handler threw before sending),
the exception thrown (none on normal completion), whether the signed
introspection call was issued, and the ticket request issued to the
permission endpoint, if any. -/
structure ReadResult where
  sent : Option HttpResponse
  thrown : Option JsError
  introspectionRequested : Bool
  permissionRequest : Option PermissionRequest
deriving DecidableEq, Repr

/-- The sentinel body sent when a validated GET finds no stored content. -/
def notFoundSentinel : String := "Resource not found in Resource Server Storage"

/-- The TypeError thrown by `authHeader.split("Bearer")[1].trim()` when the
header does not contain the separator, so that index 1 is `undefined`. -/
def trimOfUndefined : JsError :=
  ⟨"TypeError", "Cannot read properties of undefined (reading \x27trim\x27)"⟩

/-- The error thrown inside the `try` block when the introspection response
is not active. -/
def inactiveTokenError : JsError :=
  ⟨"Error", "Could not verify access token with introspection response."⟩

/-- The wrapper error rethrown by the `catch` block:
`new Error("Could not verify access token: " + e)`. -/
def couldNotVerify (cause : String) : JsError :=
  ⟨"Error", "Could not verify access token: " ++ cause⟩

/-- The failure `getResource` ends in when introspection reports the token
inactive: the inner error, interpolated into the catch-block wrapper. -/
def tokenInvalidThrown : JsError :=
  couldNotVerify inactiveTokenError.interp

/-- The exact `WWW-Authenticate` challenge value built by the handler. -/
def umaChallenge (authServer ticket : String) : String :=
  "UMA realm=\"solid\",as_uri=\"" ++ authServer ++ "\",ticket=\"" ++ ticket ++ "\""

/-- The outcome of the unauthenticated branch of `getResource`: the ticket
request to the permission endpoint, and the 401 challenge response. -/
def unauthenticatedResult (authServer : String) (config : AsUmaConfig)
    (resourceURI : String) (ticketResp : TicketResponse) : ReadResult :=
  let resp : HttpResponse :=
    { status := 401, body := "401 Unauthenticated",
      wwwAuthenticate := some (umaChallenge authServer ticketResp.ticket) }
  let preq : PermissionRequest :=
    { endpoint := config.permission_endpoint, resource_id := resourceURI,
      resource_scopes := ["urn:example:css:modes:read"] }
  { sent := some resp, thrown := none, introspectionRequested := false,
    permissionRequest := some preq }

/-- `ResourceServer.getResource`. Arguments mirror the handler closely:
`baseUrl` and `authServer` are the constructor fields, `config` the awaited
`authServerUmaConfig`, `resources` the resource `Map`, `reqUrl` the Express
`req.url`, `authHeader` the `Authorization` header (absent, or its string
value). The two outbound calls are oracles: `introspection` is what the
signed introspection fetch does when issued, `ticketResp` is the parsed
permission-endpoint response. The branch on `if (authHeader)` is a JS
truthiness test: both an absent header and a header with the empty string
value are falsy and take the unauthenticated branch. -/
def getResource (baseUrl authServer : String) (config : AsUmaConfig)
    (resources : List (String × String)) (reqUrl : String)
    (authHeader : Option String) (introspection : IntrospectionOutcome)
    (ticketResp : TicketResponse) : ReadResult :=
  let resourceURI := baseUrl ++ reqUrl.trim
  match authHeader with
  | some header =>
    if header = "" then
      -- `if (authHeader)` is falsy for the empty string: the handler sends
      -- the 401 challenge exactly as when the header is absent.
      unauthenticatedResult authServer config resourceURI ticketResp
    else
    match (jsSplit "Bearer" header).get? 1 with
    | none =>
      -- `authHeader.split("Bearer")[1]` is undefined; `.trim()` throws a
      -- TypeError before the introspection endpoint is contacted and before
      -- any response is sent.
      { sent := none, thrown := some trimOfUndefined,
        introspectionRequested := false, permissionRequest := none }
    | some _rawToken =>
      match introspection with
      | .failed e =>
        { sent := none, thrown := some (couldNotVerify e.interp),
          introspectionRequested := true, permissionRequest := none }
      | .ok r =>
        if !r.active then
          { sent := none, thrown := some tokenInvalidThrown,
            introspectionRequested := true, permissionRequest := none }
        else
          let resp : HttpResponse :=
            { status := 200,
              body := jsOrElse (mapGet resources resourceURI) notFoundSentinel,
              wwwAuthenticate := none }
          { sent := some resp, thrown := none, introspectionRequested := true,
            permissionRequest := none }
  | none => unauthenticatedResult authServer config resourceURI ticketResp

/-- Observable outcome of one `postResource` invocation: the response and
whether `registerResourceToAS` was invoked. -/
structure PostResult where
  status : Nat
  body : String
  registered : Bool
deriving DecidableEq, Repr

/-- `ResourceServer.postResource`: if the stored value at the URI is truthy
the handler answers with the already-exists body (status stays 200) without
touching the store; otherwise it stores the body when truthy, answers 204
`Resource saved at <uri>`, and triggers background AS registration. -/
def postResource (resources : List (String × String)) (baseUrl reqUrl : String)
    (body : String) : List (String × String) × PostResult :=
  let resourceURI := baseUrl ++ reqUrl.trim
  if jsTruthy (mapGet resources resourceURI) then
    (resources,
      { status := 200, body := "Resource already exists in Demo UMA Resource Server!",
        registered := false })
  else
    let resources' := if body ≠ "" then mapSet resources resourceURI body else resources
    (resources',
      { status := 204, body := "Resource saved at " ++ resourceURI,
        registered := true })

/-! ## JwkGenerator and SignedFetcher (`SignedFetcher.ts`), sequential model

Cryptographic key material is abstracted by a seed: `generateKeyPair`
returns a private key over a fresh seed, and the derivation
`importJWK` / `createPublicKey` / `exportJWK` in `getPublicKey` is the
seed-preserving map from private to public material. -/

/-- Abstract key material: the private or the public half of the pair grown
from one generation seed. -/
inductive KeyMaterial where
  | priv (seed : Nat)
  | pub (seed : Nat)
deriving DecidableEq, Repr

/-- A JWK as the code handles it: abstract material plus the `alg` and `kid`
fields (both absent on a freshly exported JWK). -/
structure AlgJwk where
  material : KeyMaterial
  alg : Option String
  kid : Option String
deriving DecidableEq, Repr

/-- The JWKS wrapper stored in the backing store (`\x7b keys: [...] \x7d`). -/
structure JWKS where
  keys : List AlgJwk
deriving DecidableEq, Repr

/-- `Map.get` over the association-list model of the JWKS backing store. -/
def jwksGet (m : List (String × JWKS)) (k : String) : Option JWKS :=
  (m.find? (fun p => p.1 = k)).map (fun p => p.2)

/-- `Map.set` over the association-list model of the JWKS backing store. -/
def jwksSet (m : List (String × JWKS)) (k : String) (v : JWKS) :
    List (String × JWKS) :=
  match m with
  | [] => [(k, v)]
  | (k₀, v₀) :: rest =>
    if k₀ = k then (k, v) :: rest else (k₀, v₀) :: jwksSet rest k v

/-- The mutable state of one `JwkGenerator` instance: the configured
algorithm and storage key, the two in-memory caches, and the backing store. -/
structure GenState where
  alg : String
  key : String
  privateJwk : Option AlgJwk
  publicJwk : Option AlgJwk
  storage : List (String × JWKS)
deriving DecidableEq, Repr

/-- A freshly constructed `JwkGenerator` over a given backing store. -/
def GenState.fresh (alg key : String) (storage : List (String × JWKS)) : GenState :=
  { alg := alg, key := key, privateJwk := none, publicJwk := none,
    storage := storage }

/-- The private JWK built when `getPrivateKey` generates:
`exportJWK(privateKey)` (no `alg`, no `kid`) followed by
`privateJwk.alg = this.alg`. `seed` stands for the randomness of
`generateKeyPair`. -/
def generatedJwk (alg : String) (seed : Nat) : AlgJwk :=
  { material := .priv seed, alg := some alg, kid := none }

/-- `JwkGenerator.getPrivateKey`, sequential semantics. Returns the JWK
(`none` models returning `undefined` when a stored JWKS has an empty key
list), the updated state, and whether a `generateKeyPair` event occurred.
`seed` is the randomness consumed if generation happens. -/
def getPrivateKey (s : GenState) (seed : Nat) : Option AlgJwk × GenState × Bool :=
  match s.privateJwk with
  | some k => (some k, s, false)
  | none =>
    match jwksGet s.storage s.key with
    | some jwks =>
      let k := jwks.keys.head?
      (k, { s with privateJwk := k }, false)
    | none =>
      let k := generatedJwk s.alg seed
      (some k,
        { s with storage := jwksSet s.storage s.key ⟨[k]⟩, privateJwk := some k },
        true)

/-- The public JWK derived from a private one in `getPublicKey`:
`createPublicKey` keeps the seed and drops the private half, `exportJWK`
loses `alg` and `kid`, and the code restores `publicJwk.alg` from
`privateJwk.alg`. -/
def derivePublic (k : AlgJwk) : AlgJwk :=
  { material := match k.material with
      | .priv seed => .pub seed
      | .pub seed => .pub seed,
    alg := k.alg, kid := none }

/-- `JwkGenerator.getPublicKey`, sequential semantics: returns the cached
public JWK when present, otherwise derives it from `getPrivateKey` and
caches it. -/
def getPublicKey (s : GenState) (seed : Nat) : Option AlgJwk × GenState × Bool :=
  match s.publicJwk with
  | some k => (some k, s, false)
  | none =>
    match getPrivateKey s seed with
    | (some privJwk, s₁, generated) =>
      let pubJwk := derivePublic privJwk
      (some pubJwk, { s₁ with publicJwk := some pubJwk }, generated)
    | (none, s₁, generated) => (none, s₁, generated)

/-- The request emitted by `SignedFetcher.fetch` as far as the claims
observe it: target and method, the `Authorization: HttpSig cred="..."`
identity header, and the `keyid` parameter of the attached signature. -/
structure SignedRequest where
  url : String
  method : String
  authorizationHeader : String
  sigKeyid : Option String
deriving DecidableEq, Repr

/-- Modelled from the `http-message-signatures` library contract used by
`SignedFetcher.fetch`: `httpbis.signMessage` takes the signature parameter
values from `paramValues` when given, falling back to the `id` field of the
signing key; the call site passes a `paramValues` object whose `keyid` entry is
the literal string TODO. -/
def signMessageKeyid (keyId : Option String) (paramKeyid : Option String) :
    Option String :=
  match paramKeyid with
  | some v => some v
  | none => keyId

/-- `SignedFetcher.fetch`: obtains the private JWK, rejects the EdDSA and
ES256K algorithms, and emits the request with the `HttpSig` identity header
and a signature whose `keyid` parameter is the hardcoded value
`TODO` passed through `paramValues`. -/
def SignedFetcher.fetch (baseUrl : String) (s : GenState) (seed : Nat)
    (url method : String) : Except JsError (SignedRequest × GenState) :=
  match getPrivateKey s seed with
  | (none, _, _) =>
    -- destructuring `const { alg, kid } = jwk` with jwk undefined throws
    .error ⟨"TypeError", "Cannot destructure property \x27alg\x27 of \x27jwk\x27 as it is undefined."⟩
  | (some jwk, s₁, _) =>
    if jwk.alg = some "EdDSA" then .error ⟨"Error", "EdDSA signing is not supported"⟩
    else if jwk.alg = some "ES256K" then .error ⟨"Error", "ES256K signing is not supported"⟩
    else
      let req : SignedRequest :=
        { url := url, method := method,
          authorizationHeader := "HttpSig cred=\"" ++ baseUrl ++ "\"",
          sigKeyid := signMessageKeyid jwk.kid (some "TODO") }
      .ok (req, s₁)

/-- `ResourceServer.getJWKSConfig`: publishes the public JWK with
`Object.assign`, giving it the `kid` value TODO, under
`/.well-known/jwks.json`. -/
def getJWKSConfig (s : GenState) (seed : Nat) : Option (JWKS × GenState) :=
  match getPublicKey s seed with
  | (some key, s₁, _) => some (⟨[{ key with kid := some "TODO" }]⟩, s₁)
  | (none, _, _) => none

/-! ## JwkGenerator.getPrivateKey, concurrent small-step model

`getPrivateKey` is an `async` method; under the JavaScript event loop two
in-flight calls interleave at the `await` boundaries. Each task is modelled
by a program counter over the atomic segments of the method body, and the
shared state holds the `privateJwk` cache and the backing store entry for the
configured storage key. Keys are identified by their generation event index
(`generateKeyPair` draws independent randomness at each call, so two
generation events yield different key material). -/

/-- Program counter of one in-flight `getPrivateKey` call. -/
inductive TaskPc where
  /-- About to run `if (this.privateJwk)`. -/
  | checkCache
  /-- About to read the backing store (`await this.storage.get(this.key)`). -/
  | readStorage
  /-- About to run `await generateKeyPair(this.alg)`. -/
  | generate
  /-- Holding a generated key, about to store it and set the cache. -/
  | store (k : Nat)
  /-- Returned with the given key. -/
  | ret (k : Nat)
deriving DecidableEq, Repr

/-- Shared state plus the two task program counters.
`genCount` counts `generateKeyPair` events. -/
structure GenSystem where
  cache : Option Nat
  storage : Option Nat
  genCount : Nat
  pcA : TaskPc
  pcB : TaskPc
deriving DecidableEq, Repr

/-- One atomic segment of `getPrivateKey` for a task at `pc`, acting on the
shared `cache` / `storage` / `genCount`; returns the updated shares and pc. -/
def taskStep (cache storage : Option Nat) (genCount : Nat) (pc : TaskPc) :
    Option Nat × Option Nat × Nat × TaskPc :=
  match pc with
  | .checkCache =>
    match cache with
    | some k => (cache, storage, genCount, .ret k)
    | none => (cache, storage, genCount, .readStorage)
  | .readStorage =>
    match storage with
    | some k => (some k, storage, genCount, .ret k)
    | none => (cache, storage, genCount, .generate)
  | .generate => (cache, storage, genCount + 1, .store genCount)
  | .store k => (some k, some k, genCount, .ret k)
  | .ret k => (cache, storage, genCount, .ret k)

/-- Scheduler step: advance task A (`false`) or task B (`true`). -/
def sysStep (t : Bool) (s : GenSystem) : GenSystem :=
  if t then
    let (c, st, g, pc) := taskStep s.cache s.storage s.genCount s.pcB
    { cache := c, storage := st, genCount := g, pcA := s.pcA, pcB := pc }
  else
    let (c, st, g, pc) := taskStep s.cache s.storage s.genCount s.pcA
    { cache := c, storage := st, genCount := g, pcA := pc, pcB := s.pcB }

/-- Run a schedule (list of scheduler choices) from a system state. -/
def sysRun (sched : List Bool) (s : GenSystem) : GenSystem :=
  match sched with
  | [] => s
  | t :: rest => sysRun rest (sysStep t s)

/-- Two concurrent first-time `getPrivateKey` calls over an empty cache and
an empty backing store. -/
def initialSystem : GenSystem :=
  { cache := none, storage := none, genCount := 0,
    pcA := .checkCache, pcB := .checkCache }

/-- The interleaving in which each task runs its first segment (cache check
plus storage read, up to the first `await`) before either generates: A and B
both find the cache and the store empty, then both generate. -/
def racySchedule : List Bool :=
  [false, false, true, true, false, true, false, true]

/-! ## Helper lemmas -/

/-- When the separator occurs nowhere in the input, the split worker returns
the single chunk consisting of everything seen so far. -/
theorem splitFuel_no_occurrence (sep : List Char) :
    ∀ (fuel : Nat) (l acc : List Char), l.length ≤ fuel → ¬ (sep <:+: l) →
    splitFuel sep fuel l acc = [acc.reverse ++ l] := by
  intro fuel
  induction fuel with
  | zero =>
    intro l acc hlen _
    match l with
    | [] => simp [splitFuel]
    | c :: rest => simp at hlen
  | succ f ih =>
    intro l acc hlen hocc
    match l with
    | [] => simp [splitFuel]
    | c :: rest =>
      have hpre : sep.isPrefixOf (c :: rest) = false := by
        by_contra hc
        have hb : sep.isPrefixOf (c :: rest) = true := by
          revert hc; cases sep.isPrefixOf (c :: rest) <;> simp
        exact hocc ( List.isPrefixOf_iff_prefix.mp hb).isInfix
      have hrest : ¬ (sep <:+: rest) := fun h => hocc ( List.infix_cons h)
      have hlen₂ : rest.length ≤ f := by simp at hlen; omega
      rw [splitFuel, hpre]
      simp only [Bool.false_eq_true, if_false]
      rw [ih rest (c :: acc) hlen₂ hrest]
      simp

/-- `s.split(sep)` returns the input as its only chunk when the separator
occurs nowhere in it. -/
theorem jsSplit_no_occurrence (sep s : String)
    (h : ¬ (sep.data <:+: s.data)) : jsSplit sep s = [s] := by
  unfold jsSplit
  rw [splitFuel_no_occurrence sep.data s.data.length s.data [] (le_refl _) h]
  rfl

/-- A header from which a token was extracted at index 1 of the split cannot
be the empty string: splitting the empty string yields a single chunk. -/
theorem header_ne_empty_of_token (header rawToken : String)
    (hTok : (jsSplit "Bearer" header)[1]? = some rawToken) : header ≠ "" := by
  intro h
  rw [h] at hTok
  have hempty : (jsSplit "Bearer" "")[1]? = (none : Option String) := by decide
  rw [hempty] at hTok
  exact Option.noConfusion hTok

/-- A string with the given prefix differs from a fixed string that differs
from the prefix at some position. -/
theorem append_ne_of_get (pre m fixed : String) (i : Nat)
    (hi : i < pre.data.length) (hne : pre.data[i]? ≠ fixed.data[i]?) :
    pre ++ m ≠ fixed := by
  intro h
  have hd := congrArg String.data h
  rw [String.data_append] at hd
  apply hne
  rw [← hd]
  rw [List.getElem?_append_left hi]

/-- Reading back the key just written into the association-list model of a
JS `Map`. -/
theorem mapGet_mapSet_self (m : List (String × String)) (k v : String) :
    mapGet (mapSet m k v) k = some v := by
  induction m with
  | nil => simp [mapGet, mapSet]
  | cons p rest ih =>
    obtain ⟨k₀, v₀⟩ := p
    by_cases h : k₀ = k
    · subst h; simp [mapGet, mapSet]
    · simp only [mapSet, if_neg h]
      simpa [mapGet, List.find?, h] using ih

/-- Reading back the key just written into the JWKS backing store model. -/
theorem jwksGet_jwksSet_self (m : List (String × JWKS)) (k : String) (v : JWKS) :
    jwksGet (jwksSet m k v) k = some v := by
  induction m with
  | nil => simp [jwksGet, jwksSet]
  | cons p rest ih =>
    obtain ⟨k₀, v₀⟩ := p
    by_cases h : k₀ = k
    · subst h; simp [jwksGet, jwksSet]
    · simp only [jwksSet, if_neg h]
      simpa [jwksGet, List.find?, h] using ih

/-! ## Claim theorems -/

/-- C2: a GET without an Authorization header issues a ticket request to the
AS permission endpoint carrying the resource id and the read scope, and
responds 401 with body `401 Unauthenticated` and a `WWW-Authenticate` header
of the exact UMA challenge form whose ticket equals the ticket of the AS
response. -/
theorem getResource_unauthenticated_challenge (baseUrl authServer : String)
    (config : AsUmaConfig) (resources : List (String × String)) (reqUrl : String)
    (introspection : IntrospectionOutcome) (tix : TicketResponse) :
    getResource baseUrl authServer config resources reqUrl none introspection tix
      = ReadResult.mk
          (some (HttpResponse.mk 401 "401 Unauthenticated"
            (some ("UMA realm=\"solid\",as_uri=\"" ++ authServer
              ++ "\",ticket=\"" ++ tix.ticket ++ "\""))))
          none
          false
          (some (PermissionRequest.mk config.permission_endpoint
            (baseUrl ++ reqUrl.trim) ["urn:example:css:modes:read"])) := rfl

/-- C9 counterexample: an Authorization header present with the empty string
value contains no Bearer substring, yet the handler does not throw — the
truthiness test `if (authHeader)` is falsy for the empty string, so the
handler contacts the permission endpoint and sends the 401 challenge. -/
theorem getResource_empty_auth_header_challenge :
    (¬ ("Bearer".data <:+: "".data))
    ∧ getResource "http://localhost:3565" "http://localhost:4000/uma"
        (AsUmaConfig.mk "pe" "ie" "re") [] "/r1" (some "")
        (.ok ⟨true⟩) ⟨"t1"⟩
      = ReadResult.mk
          (some (HttpResponse.mk 401 "401 Unauthenticated"
            (some (umaChallenge "http://localhost:4000/uma" "t1"))))
          none false
          (some (PermissionRequest.mk "pe"
            ("http://localhost:3565" ++ "/r1".trim)
            ["urn:example:css:modes:read"])) :=
  ⟨by decide, rfl⟩

/-- C9 (amended): a GET whose Authorization header is present, truthy (not
the empty string), and does not contain the substring Bearer makes the token
extraction evaluate index 1 of the split to undefined, so the trim call
throws a TypeError: the handler aborts without contacting the AS and without
sending any response. A present-but-empty header instead takes the falsy
branch of the truthiness test and yields the 401 challenge. -/
theorem getResource_non_bearer_header_throws (baseUrl authServer : String)
    (config : AsUmaConfig) (resources : List (String × String))
    (reqUrl header : String) (introspection : IntrospectionOutcome)
    (tix : TicketResponse)
    (hNonEmpty : header ≠ "")
    (hNoBearer : ¬ ("Bearer".data <:+: header.data)) :
    getResource baseUrl authServer config resources reqUrl (some header)
        introspection tix
      = ReadResult.mk none (some trimOfUndefined) false none := by
  have hsplit := jsSplit_no_occurrence "Bearer" header hNoBearer
  simp [getResource, hNonEmpty, hsplit]

/-- Witness for C9 at the concrete header `Basic xyz`. -/
theorem getResource_non_bearer_header_throws_witness :
    ("Basic xyz" ≠ "")
    ∧ (¬ ("Bearer".data <:+: "Basic xyz".data))
    ∧ getResource "http://localhost:3565" "http://localhost:4000/uma"
        (AsUmaConfig.mk "pe" "ie" "re") [] "/resource1" (some "Basic xyz")
        (.ok ⟨true⟩) ⟨"t1"⟩
      = ReadResult.mk none (some trimOfUndefined) false none :=
  ⟨by decide, by decide,
    getResource_non_bearer_header_throws _ _ _ _ _ _ _ _ (by decide) (by decide)⟩

/-- C5: the interleaving `racySchedule` of two concurrent first-time
`getPrivateKey` calls over an empty cache and empty store produces two
`generateKeyPair` events, and the two callers return different keys — the
single-flight invariant claimed by the spec does not hold in the code. -/
theorem getPrivateKey_race_two_generations :
    (sysRun racySchedule initialSystem).genCount = 2
    ∧ (sysRun racySchedule initialSystem).pcA = TaskPc.ret 0
    ∧ (sysRun racySchedule initialSystem).pcB = TaskPc.ret 1
    ∧ (sysRun racySchedule initialSystem).pcA ≠ (sysRun racySchedule initialSystem).pcB := by
  decide

/-- C10: a POST with an empty body to a URI unknown to the store still
responds 204 with body `Resource saved at <uri>` and still triggers AS
registration, yet leaves the store unchanged, and a later POST with truthy
content still creates the entry. -/
theorem postResource_empty_body_stores_nothing
    (store : List (String × String)) (baseUrl reqUrl c : String)
    (hAbsent : mapGet store (baseUrl ++ reqUrl.trim) = none) (hc : c ≠ "") :
    postResource store baseUrl reqUrl ""
      = (store, PostResult.mk 204
          ("Resource saved at " ++ (baseUrl ++ reqUrl.trim)) true)
    ∧ mapGet (postResource store baseUrl reqUrl c).1 (baseUrl ++ reqUrl.trim)
      = some c := by
  constructor
  · simp [postResource, hAbsent, jsTruthy]
  · simp [postResource, hAbsent, jsTruthy, hc, mapGet_mapSet_self]

/-- Witness for C10 at an empty store and the URI path `/r1`. -/
theorem postResource_empty_body_stores_nothing_witness :
    (mapGet [] ("http://localhost:3565" ++ "/r1".trim) = none)
    ∧ ("hello" ≠ "")
    ∧ (postResource [] "http://localhost:3565" "/r1" ""
        = ([], PostResult.mk 204
            ("Resource saved at " ++ ("http://localhost:3565" ++ "/r1".trim)) true)
      ∧ mapGet (postResource [] "http://localhost:3565" "/r1" "hello").1
          ("http://localhost:3565" ++ "/r1".trim) = some "hello") :=
  ⟨by decide, by decide,
    postResource_empty_body_stores_nothing _ _ _ _ (by decide) (by decide)⟩

/-- C4: once a first successful POST has stored content at a URI, a second
POST to the same URI leaves the store unchanged and yields the already-exists
body with the default status 200 and no registration; more generally every
POST against a URI holding truthy content behaves that way. -/
theorem postResource_second_post_already_exists
    (store : List (String × String)) (baseUrl reqUrl c c₂ : String)
    (hAbsent : mapGet store (baseUrl ++ reqUrl.trim) = none) (hc : c ≠ "") :
    mapGet (postResource store baseUrl reqUrl c).1 (baseUrl ++ reqUrl.trim)
      = some c
    ∧ postResource (postResource store baseUrl reqUrl c).1 baseUrl reqUrl c₂
      = ((postResource store baseUrl reqUrl c).1,
          PostResult.mk 200 "Resource already exists in Demo UMA Resource Server!" false)
    ∧ (∀ store₂ : List (String × String),
        jsTruthy (mapGet store₂ (baseUrl ++ reqUrl.trim)) = true →
        postResource store₂ baseUrl reqUrl c₂
          = (store₂,
              PostResult.mk 200 "Resource already exists in Demo UMA Resource Server!" false)) := by
  have h1 : mapGet (postResource store baseUrl reqUrl c).1 (baseUrl ++ reqUrl.trim)
      = some c := by
    simp [postResource, hAbsent, jsTruthy, hc, mapGet_mapSet_self]
  have hGen : ∀ store₂ : List (String × String),
      jsTruthy (mapGet store₂ (baseUrl ++ reqUrl.trim)) = true →
      postResource store₂ baseUrl reqUrl c₂
        = (store₂,
            PostResult.mk 200 "Resource already exists in Demo UMA Resource Server!" false) := by
    intro store₂ ht
    simp [postResource, ht]
  refine ⟨h1, ?_, hGen⟩
  exact hGen _ (by rw [h1]; simp [jsTruthy, hc])

/-- Witness for C4: POST `hello` then POST `world` to the same URI. -/
theorem postResource_second_post_already_exists_witness :
    (mapGet [] ("http://localhost:3565" ++ "/r1".trim) = none)
    ∧ ("hello" ≠ "")
    ∧ (mapGet (postResource [] "http://localhost:3565" "/r1" "hello").1
          ("http://localhost:3565" ++ "/r1".trim) = some "hello"
      ∧ postResource (postResource [] "http://localhost:3565" "/r1" "hello").1
          "http://localhost:3565" "/r1" "world"
        = ((postResource [] "http://localhost:3565" "/r1" "hello").1,
            PostResult.mk 200 "Resource already exists in Demo UMA Resource Server!" false)
      ∧ (∀ store₂ : List (String × String),
          jsTruthy (mapGet store₂ ("http://localhost:3565" ++ "/r1".trim)) = true →
          postResource store₂ "http://localhost:3565" "/r1" "world"
            = (store₂,
                PostResult.mk 200 "Resource already exists in Demo UMA Resource Server!" false))) :=
  ⟨by decide, by decide,
    postResource_second_post_already_exists _ _ _ _ _ (by decide) (by decide)⟩

/-- C1: when introspection reports the token inactive, a GET with a bearer
token ends in the thrown token-verification failure and no response is sent,
so the stored resource content is never returned. -/
theorem getResource_inactive_token_fails (baseUrl authServer : String)
    (config : AsUmaConfig) (resources : List (String × String))
    (reqUrl header rawToken : String) (r : IntrospectionResponse)
    (tix : TicketResponse)
    (hTok : (jsSplit "Bearer" header)[1]? = some rawToken)
    (hInactive : r.active = false) :
    getResource baseUrl authServer config resources reqUrl (some header)
        (.ok r) tix
      = ReadResult.mk none (some tokenInvalidThrown) true none := by
  have hne := header_ne_empty_of_token header rawToken hTok
  simp [getResource, hne, hTok, hInactive]

/-- Witness for C1 at a concrete bearer header, inactive token, and a store
holding content at the requested URI. -/
theorem getResource_inactive_token_fails_witness :
    ((jsSplit "Bearer" "Bearer abc")[1]? = some " abc")
    ∧ ((⟨false⟩ : IntrospectionResponse).active = false)
    ∧ getResource "http://localhost:3565" "http://localhost:4000/uma"
        (AsUmaConfig.mk "pe" "ie" "re")
        [("http://localhost:3565/r1", "hello")] "/r1"
        (some "Bearer abc") (.ok ⟨false⟩) ⟨"t1"⟩
      = ReadResult.mk none (some tokenInvalidThrown) true none :=
  ⟨by decide, rfl,
    getResource_inactive_token_fails "http://localhost:3565"
      "http://localhost:4000/uma" (AsUmaConfig.mk "pe" "ie" "re")
      [("http://localhost:3565/r1", "hello")] "/r1" "Bearer abc" " abc"
      ⟨false⟩ ⟨"t1"⟩ (by decide) rfl⟩

/-- C3: with a token reported active, a GET returns exactly the content a
previous successful POST stored at the URI, and when the URI is unknown to
the store it returns the not-found sentinel as a normal 200 response with
nothing thrown — distinct from the token-invalid failure, which throws and
sends nothing. -/
theorem getResource_active_token_returns_content (baseUrl authServer : String)
    (config : AsUmaConfig) (store : List (String × String))
    (reqUrl header rawToken c : String) (r : IntrospectionResponse)
    (tix : TicketResponse)
    (hTok : (jsSplit "Bearer" header)[1]? = some rawToken)
    (hActive : r.active = true)
    (hAbsent : mapGet store (baseUrl ++ reqUrl.trim) = none)
    (hc : c ≠ "") :
    getResource baseUrl authServer config
        (postResource store baseUrl reqUrl c).1 reqUrl (some header) (.ok r) tix
      = ReadResult.mk (some (HttpResponse.mk 200 c none)) none true none
    ∧ getResource baseUrl authServer config store reqUrl (some header)
        (.ok r) tix
      = ReadResult.mk (some (HttpResponse.mk 200 notFoundSentinel none)) none true none := by
  have hStore : mapGet (postResource store baseUrl reqUrl c).1
      (baseUrl ++ reqUrl.trim) = some c := by
    simp [postResource, hAbsent, jsTruthy, hc, mapGet_mapSet_self]
  have hne := header_ne_empty_of_token header rawToken hTok
  constructor
  · simp [getResource, hne, hTok, hActive, hStore, jsOrElse, hc]
  · simp [getResource, hne, hTok, hActive, hAbsent, jsOrElse]

/-- Witness for C3: POST `hello` to `/r1`, then GET it with an active bearer
token; and GET an unknown URI with an active token. -/
theorem getResource_active_token_returns_content_witness :
    ((jsSplit "Bearer" "Bearer abc")[1]? = some " abc")
    ∧ ((⟨true⟩ : IntrospectionResponse).active = true)
    ∧ (mapGet [] ("http://localhost:3565" ++ "/r1".trim) = none)
    ∧ ("hello" ≠ "")
    ∧ (getResource "http://localhost:3565" "http://localhost:4000/uma"
          (AsUmaConfig.mk "pe" "ie" "re")
          (postResource [] "http://localhost:3565" "/r1" "hello").1 "/r1"
          (some "Bearer abc") (.ok ⟨true⟩) ⟨"t1"⟩
        = ReadResult.mk (some (HttpResponse.mk 200 "hello" none)) none true none
      ∧ getResource "http://localhost:3565" "http://localhost:4000/uma"
          (AsUmaConfig.mk "pe" "ie" "re") [] "/r1"
          (some "Bearer abc") (.ok ⟨true⟩) ⟨"t1"⟩
        = ReadResult.mk (some (HttpResponse.mk 200 notFoundSentinel none)) none true none) :=
  ⟨by decide, rfl, by decide, by decide,
    getResource_active_token_returns_content "http://localhost:3565"
      "http://localhost:4000/uma" (AsUmaConfig.mk "pe" "ie" "re") [] "/r1"
      "Bearer abc" " abc" "hello" ⟨true⟩ ⟨"t1"⟩
      (by decide) rfl (by decide) (by decide)⟩

/-- C6: when the signed introspection call itself fails — a network failure
(TypeError) or a non-JSON body (SyntaxError) — the handler ends in the
wrapper failure around that cause, sends no response, and that failure
differs from the inactive-token failure. -/
theorem getResource_introspection_failure_distinct (baseUrl authServer : String)
    (config : AsUmaConfig) (resources : List (String × String))
    (reqUrl header rawToken : String) (e : JsError) (tix : TicketResponse)
    (hTok : (jsSplit "Bearer" header)[1]? = some rawToken)
    (hName : e.name = "TypeError" ∨ e.name = "SyntaxError") :
    getResource baseUrl authServer config resources reqUrl (some header)
        (.failed e) tix
      = ReadResult.mk none (some (couldNotVerify e.interp)) true none
    ∧ couldNotVerify e.interp ≠ tokenInvalidThrown := by
  constructor
  · have hne := header_ne_empty_of_token header rawToken hTok
    simp [getResource, hne, hTok]
  · intro hEq
    have hmsg : "Could not verify access token: " ++ (e.name ++ ": " ++ e.msg)
        = "Could not verify access token: "
          ++ ("Error" ++ ": " ++ "Could not verify access token with introspection response.") :=
      congrArg JsError.msg hEq
    rcases hName with h | h
    · rw [h] at hmsg
      have hmsg₂ : ("Could not verify access token: " ++ ("TypeError" ++ ": ")) ++ e.msg
          = "Could not verify access token: "
            ++ ("Error" ++ ": " ++ "Could not verify access token with introspection response.") := by
        rw [String.append_assoc]
        exact hmsg
      exact append_ne_of_get _ _ _ 31 (by decide) (by decide) hmsg₂
    · rw [h] at hmsg
      have hmsg₂ : ("Could not verify access token: " ++ ("SyntaxError" ++ ": ")) ++ e.msg
          = "Could not verify access token: "
            ++ ("Error" ++ ": " ++ "Could not verify access token with introspection response.") := by
        rw [String.append_assoc]
        exact hmsg
      exact append_ne_of_get _ _ _ 31 (by decide) (by decide) hmsg₂

/-- Witness for C6 at a concrete network failure (fetch failed). -/
theorem getResource_introspection_failure_distinct_witness :
    ((jsSplit "Bearer" "Bearer abc")[1]? = some " abc")
    ∧ ((⟨"TypeError", "fetch failed"⟩ : JsError).name = "TypeError"
        ∨ (⟨"TypeError", "fetch failed"⟩ : JsError).name = "SyntaxError")
    ∧ (getResource "http://localhost:3565" "http://localhost:4000/uma"
          (AsUmaConfig.mk "pe" "ie" "re") [] "/r1" (some "Bearer abc")
          (.failed ⟨"TypeError", "fetch failed"⟩) ⟨"t1"⟩
        = ReadResult.mk none
            (some (couldNotVerify (JsError.interp ⟨"TypeError", "fetch failed"⟩)))
            true none
      ∧ couldNotVerify (JsError.interp ⟨"TypeError", "fetch failed"⟩)
          ≠ tokenInvalidThrown) :=
  ⟨by decide, Or.inl rfl,
    getResource_introspection_failure_distinct "http://localhost:3565"
      "http://localhost:4000/uma" (AsUmaConfig.mk "pe" "ie" "re") [] "/r1"
      "Bearer abc" " abc" ⟨"TypeError", "fetch failed"⟩ ⟨"t1"⟩
      (by decide) (Or.inl rfl)⟩

/-- C7: getPrivateKey returns the cached key when present; otherwise the key
read from the backing store under the configured storage key; it generates
and persists only when both are absent; a fresh JwkGenerator over the store
persisted by a previous generation returns the same private key without a
new generation, and getPublicKey derives the same public key from it. -/
theorem getPrivateKey_cache_storage_generate
    (s₁ s₂ s₃ : GenState) (k₁ k₂ : AlgJwk) (seed seed₂ : Nat)
    (alg key : String) (storage : List (String × JWKS))
    (h₁ : s₁.privateJwk = some k₁)
    (h₂c : s₂.privateJwk = none)
    (h₂s : jwksGet s₂.storage s₂.key = some (JWKS.mk [k₂]))
    (h₃c : s₃.privateJwk = none)
    (h₃s : jwksGet s₃.storage s₃.key = none)
    (hMiss : jwksGet storage key = none) :
    getPrivateKey s₁ seed = (some k₁, s₁, false)
    ∧ getPrivateKey s₂ seed = (some k₂, { s₂ with privateJwk := some k₂ }, false)
    ∧ getPrivateKey s₃ seed
      = (some (generatedJwk s₃.alg seed),
          { s₃ with
            storage := jwksSet s₃.storage s₃.key (JWKS.mk [generatedJwk s₃.alg seed]),
            privateJwk := some (generatedJwk s₃.alg seed) },
          true)
    ∧ getPrivateKey (GenState.fresh alg key
          (jwksSet storage key (JWKS.mk [generatedJwk alg seed]))) seed₂
      = (some (generatedJwk alg seed),
          { GenState.fresh alg key (jwksSet storage key (JWKS.mk [generatedJwk alg seed]))
            with privateJwk := some (generatedJwk alg seed) },
          false)
    ∧ (getPublicKey (GenState.fresh alg key
          (jwksSet storage key (JWKS.mk [generatedJwk alg seed]))) seed₂).1
      = (getPublicKey (GenState.fresh alg key storage) seed).1 := by
  refine ⟨?_, ?_, ?_, ?_, ?_⟩
  · simp [getPrivateKey, h₁]
  · simp [getPrivateKey, h₂c, h₂s]
  · simp [getPrivateKey, h₃c, h₃s]
  · simp [getPrivateKey, GenState.fresh, jwksGet_jwksSet_self]
  · simp [getPublicKey, getPrivateKey, GenState.fresh, jwksGet_jwksSet_self, hMiss]

/-- Witness for C7 at concrete generator states: a cached key, a stored key,
an empty generator, and a restart over the persisted store. -/
theorem getPrivateKey_cache_storage_generate_witness :
    ((GenState.mk "a" "k" (some (generatedJwk "a" 5)) none []).privateJwk
        = some (generatedJwk "a" 5))
    ∧ ((GenState.mk "a" "k" none none [("k", JWKS.mk [generatedJwk "a" 7])]).privateJwk
        = none)
    ∧ (jwksGet (GenState.mk "a" "k" none none [("k", JWKS.mk [generatedJwk "a" 7])]).storage
          (GenState.mk "a" "k" none none [("k", JWKS.mk [generatedJwk "a" 7])]).key
        = some (JWKS.mk [generatedJwk "a" 7]))
    ∧ ((GenState.fresh "a" "k" []).privateJwk = none)
    ∧ (jwksGet (GenState.fresh "a" "k" []).storage (GenState.fresh "a" "k" []).key = none)
    ∧ (jwksGet [] "k" = none)
    ∧ (getPrivateKey (GenState.mk "a" "k" (some (generatedJwk "a" 5)) none []) 0
        = (some (generatedJwk "a" 5),
            GenState.mk "a" "k" (some (generatedJwk "a" 5)) none [], false)
      ∧ getPrivateKey (GenState.mk "a" "k" none none [("k", JWKS.mk [generatedJwk "a" 7])]) 0
        = (some (generatedJwk "a" 7),
            { GenState.mk "a" "k" none none [("k", JWKS.mk [generatedJwk "a" 7])]
              with privateJwk := some (generatedJwk "a" 7) },
            false)
      ∧ getPrivateKey (GenState.fresh "a" "k" []) 0
        = (some (generatedJwk (GenState.fresh "a" "k" []).alg 0),
            { GenState.fresh "a" "k" [] with
              storage := jwksSet (GenState.fresh "a" "k" []).storage
                (GenState.fresh "a" "k" []).key
                (JWKS.mk [generatedJwk (GenState.fresh "a" "k" []).alg 0]),
              privateJwk := some (generatedJwk (GenState.fresh "a" "k" []).alg 0) },
            true)
      ∧ getPrivateKey (GenState.fresh "a" "k"
            (jwksSet [] "k" (JWKS.mk [generatedJwk "a" 0]))) 1
        = (some (generatedJwk "a" 0),
            { GenState.fresh "a" "k" (jwksSet [] "k" (JWKS.mk [generatedJwk "a" 0]))
              with privateJwk := some (generatedJwk "a" 0) },
            false)
      ∧ (getPublicKey (GenState.fresh "a" "k"
            (jwksSet [] "k" (JWKS.mk [generatedJwk "a" 0]))) 1).1
        = (getPublicKey (GenState.fresh "a" "k" []) 0).1) :=
  ⟨rfl, rfl, by decide, rfl, by decide, by decide,
    getPrivateKey_cache_storage_generate
      (GenState.mk "a" "k" (some (generatedJwk "a" 5)) none [])
      (GenState.mk "a" "k" none none [("k", JWKS.mk [generatedJwk "a" 7])])
      (GenState.fresh "a" "k" []) (generatedJwk "a" 5) (generatedJwk "a" 7)
      0 1 "a" "k" []
      rfl rfl (by decide) rfl (by decide) (by decide)⟩

/-- C8: a request emitted by SignedFetcher.fetch carries a signature whose
keyid parameter equals the kid of the public JWK published by
getJWKSConfig at /.well-known/jwks.json. -/
theorem signedFetcher_keyid_matches_jwks (baseUrl : String) (s t : GenState)
    (seed seed₂ : Nat) (url method : String) (req : SignedRequest)
    (s₁ : GenState) (ks : JWKS) (t₁ : GenState) (pk : AlgJwk)
    (hFetch : SignedFetcher.fetch baseUrl s seed url method = .ok (req, s₁))
    (hJwks : getJWKSConfig t seed₂ = some (ks, t₁))
    (hKeys : ks.keys = [pk]) :
    req.sigKeyid = some "TODO" ∧ pk.kid = some "TODO"
    ∧ req.sigKeyid = pk.kid := by
  have h₁ : req.sigKeyid = some "TODO" := by
    unfold SignedFetcher.fetch at hFetch
    rcases hgp : getPrivateKey s seed with ⟨jwkOpt, s₀, g⟩
    rw [hgp] at hFetch
    rcases jwkOpt with _ | jwk
    · simp at hFetch
    · by_cases hE : jwk.alg = some "EdDSA"
      · simp [hE] at hFetch
      · by_cases hK : jwk.alg = some "ES256K"
        · simp [hE, hK] at hFetch
        · simp [hE, hK] at hFetch
          obtain ⟨hreq, _⟩ := hFetch
          rw [← hreq]
          rfl
  have h₂ : pk.kid = some "TODO" := by
    unfold getJWKSConfig at hJwks
    rcases hgq : getPublicKey t seed₂ with ⟨pubOpt, t₀, g⟩
    rw [hgq] at hJwks
    rcases pubOpt with _ | pubk
    · simp at hJwks
    · simp at hJwks
      obtain ⟨hks, _⟩ := hJwks
      rw [← hks] at hKeys
      have hpk : pk = { pubk with kid := some "TODO" } := by
        simpa using hKeys.symm
      rw [hpk]
  exact ⟨h₁, h₂, by rw [h₁, h₂]⟩

/-- Witness for C8: a fetch and a JWKS request from fresh generators over an
empty backing store. -/
theorem signedFetcher_keyid_matches_jwks_witness :
    (SignedFetcher.fetch "b" (GenState.fresh "a" "k" []) 0 "u" "POST"
      = .ok (SignedRequest.mk "u" "POST" "HttpSig cred=\"b\"" (some "TODO"),
          GenState.mk "a" "k" (some (generatedJwk "a" 0)) none
            [("k", JWKS.mk [generatedJwk "a" 0])]))
    ∧ (getJWKSConfig (GenState.fresh "a" "k" []) 0
      = some (JWKS.mk [AlgJwk.mk (KeyMaterial.pub 0) (some "a") (some "TODO")],
          GenState.mk "a" "k" (some (generatedJwk "a" 0))
            (some (AlgJwk.mk (KeyMaterial.pub 0) (some "a") none))
            [("k", JWKS.mk [generatedJwk "a" 0])]))
    ∧ ((JWKS.mk [AlgJwk.mk (KeyMaterial.pub 0) (some "a") (some "TODO")]).keys
      = [AlgJwk.mk (KeyMaterial.pub 0) (some "a") (some "TODO")])
    ∧ ((SignedRequest.mk "u" "POST" "HttpSig cred=\"b\"" (some "TODO")).sigKeyid
        = some "TODO"
      ∧ (AlgJwk.mk (KeyMaterial.pub 0) (some "a") (some "TODO")).kid = some "TODO"
      ∧ (SignedRequest.mk "u" "POST" "HttpSig cred=\"b\"" (some "TODO")).sigKeyid
        = (AlgJwk.mk (KeyMaterial.pub 0) (some "a") (some "TODO")).kid) :=
  ⟨rfl, by decide, rfl,
    signedFetcher_keyid_matches_jwks "b" (GenState.fresh "a" "k" [])
      (GenState.fresh "a" "k" []) 0 0 "u" "POST"
      (SignedRequest.mk "u" "POST" "HttpSig cred=\"b\"" (some "TODO"))
      (GenState.mk "a" "k" (some (generatedJwk "a" 0)) none
        [("k", JWKS.mk [generatedJwk "a" 0])])
      (JWKS.mk [AlgJwk.mk (KeyMaterial.pub 0) (some "a") (some "TODO")])
      (GenState.mk "a" "k" (some (generatedJwk "a" 0))
        (some (AlgJwk.mk (KeyMaterial.pub 0) (some "a") none))
        [("k", JWKS.mk [generatedJwk "a" 0])])
      (AlgJwk.mk (KeyMaterial.pub 0) (some "a") (some "TODO"))
      rfl (by decide) rfl⟩

end UMARS
